import Mathlib

/-!
Verification of the decision-gate modules of the og-system repository.

The four gates embedded here, translated from the Python sources:
  * Duplicate-Submission Gate  — src/agents/z/workspace/skills/scoring/duplicate_checker.py
  * Hard-Filter Gate           — src/agents/rick/workspace/skills/scoring/hard_filters.py
  * Anti-Cannibalization Gate  — src/agents/rick/workspace/skills/scoring/anti_cannibalization.py
  * Message Routing Gate       — src/agents/em/workspace/skills/routing/message_router.py

Modelling conventions:
  * Python `datetime.now(timezone.utc)` becomes an explicit `now : Int` argument
    (seconds for the datetime-based gates, whole days for the date-based
    duplicate checker, matching the granularity each module actually compares at).
  * A date/timestamp string field of a historical record is modelled by
    `DateField`: `missing` for an absent or empty string (falsy in Python),
    `malformed` for a present string `date.fromisoformat` rejects, and
    `valid d` for a string parsing to day/second number `d`.
  * Python string normalisation (`.upper()`, `.lower()`, `.strip()`, `.split()`)
    is re-implemented over character lists so terms reduce in the kernel;
    on the ASCII data these modules handle this agrees with Python.
  * Fallible Python code (a raised exception) is modelled with `Except String`.
  * Appends to the JSONL audit logs are modelled by returning the list of log
    entries written during the call, holding the fields the source writes;
    free-text `detail` / `reason` payload strings interpolating dates are not
    reproduced verbatim, the structured fields (rule id, severity, decision,
    conflicting record) are.
-/

/-- Python `str.upper()` restricted to ASCII case mapping. -/
def pyUpper (s : String) : String := ⟨s.data.map Char.toUpper⟩

/-- Python `str.lower()` restricted to ASCII case mapping. -/
def pyLower (s : String) : String := ⟨s.data.map Char.toLower⟩

/-- Python `str.strip()`: drop leading and trailing whitespace. -/
def pyStrip (s : String) : String :=
  ⟨((s.data.dropWhile Char.isWhitespace).reverse.dropWhile Char.isWhitespace).reverse⟩

/-- The `.upper().strip()` normalisation the duplicate checker applies to
organisation and vendor names. -/
def normUp (s : String) : String := pyStrip (pyUpper s)

/-- Python `needle in hay` on strings (substring containment), over char lists. -/
def listIsInfixOf (needle : List Char) : List Char → Bool
  | [] => needle.isEmpty
  | c :: rest => needle.isPrefixOf (c :: rest) || listIsInfixOf needle rest

def pySplitWsGo (cur : List Char) : List Char → List (List Char)
  | [] => if cur.isEmpty then [] else [cur.reverse]
  | c :: rest =>
    if Char.isWhitespace c then
      if cur.isEmpty then pySplitWsGo [] rest else cur.reverse :: pySplitWsGo [] rest
    else pySplitWsGo (c :: cur) rest

/-- Python `str.split()` with no argument: split on whitespace runs, drop empties. -/
def pySplitWs (s : String) : List String := (pySplitWsGo [] s.data).map (fun l => ⟨l⟩)

def splitOnGo (sep : List Char) : Nat → List Char → List Char → List (List Char)
  | _, [], cur => [cur.reverse]
  | 0, l, cur => [cur.reverse ++ l]
  | fuel+1, c :: rest, cur =>
    if sep.isPrefixOf (c :: rest) then cur.reverse :: splitOnGo sep fuel ((c :: rest).drop sep.length) []
    else splitOnGo sep fuel rest (c :: cur)

/-- Python `str.split(sep)` for a non-empty separator. -/
def pySplitOn (s sep : String) : List String :=
  (splitOnGo sep.data (s.data.length + 1) s.data []).map (fun l => ⟨l⟩)

/-- Python `str.rstrip(",")`. -/
def rstripComma (s : String) : String := ⟨(s.data.reverse.dropWhile (· = ',')).reverse⟩

instance {ε α : Type} [DecidableEq ε] [DecidableEq α] : DecidableEq (Except ε α) := fun a b =>
  match a, b with
  | .error e, .error f =>
    if h : e = f then isTrue (congrArg Except.error h)
    else isFalse (fun c => h (Except.error.inj c))
  | .ok x, .ok y =>
    if h : x = y then isTrue (congrArg Except.ok h)
    else isFalse (fun c => h (Except.ok.inj c))
  | .error _, .ok _ => isFalse (fun c => Except.noConfusion c)
  | .ok _, .error _ => isFalse (fun c => Except.noConfusion c)

/-- A date or timestamp string field of a historical record, as seen by the
gates: absent/empty (falsy), present but unparseable, or parsed to a number. -/
inductive DateField
  | missing
  | malformed
  | valid (d : Int)
deriving DecidableEq, Repr

namespace DupGate

/- ---------------------------------------------------------------------------
Duplicate-Submission Gate,
src/agents/z/workspace/skills/scoring/duplicate_checker.py.
Dates are whole-day numbers (the source compares `datetime.date` values).
--------------------------------------------------------------------------- -/

/-- A consultant-level DNS entry from `request["do_not_submit"]`: the source
accepts either a bare company string or a dict with company and vendor keys. -/
inductive ConsultantDnsEntry
  | strEntry (s : String)
  | dictEntry (company vendor : String)
deriving DecidableEq, Repr

def ConsultantDnsEntry.company : ConsultantDnsEntry → String
  | .strEntry s => s
  | .dictEntry c _ => c

def ConsultantDnsEntry.vendor : ConsultantDnsEntry → String
  | .strEntry _ => ""
  | .dictEntry _ v => v

/-- A master DNS list entry (`dns_list` argument of `check_submission`). -/
structure MasterDnsEntry where
  consultant_id : String
  company : String
  vendor : String
  reason : String
deriving DecidableEq, Repr

/-- A past submission record (`submission_history` element). A key the source
reads with `.get(...)` and finds absent is modelled by its default value. -/
structure HistRecord where
  consultant_id : String
  end_client : String
  vendor_name : String
  job_posting_id : String
  submission_date : DateField
  status : String
deriving DecidableEq, Repr

/-- The request dict passed to `check_submission`. `submission_date` is parsed
unconditionally by the source (`date.fromisoformat(request["submission_date"])`),
so the model carries the parsed day number. -/
structure DupRequest where
  consultant_id : String
  end_client : String
  vendor_name : String
  job_posting_id : String
  submission_date : Int
  do_not_submit : List ConsultantDnsEntry
deriving DecidableEq, Repr

/-- One element of `rules_triggered`. The source also interpolates a free-text
`detail` string which is not reproduced here. -/
structure TriggeredRule where
  rule : Nat
  description : String
  severity : String
  conflicting_record : Option HistRecord
deriving DecidableEq, Repr

/-- The result dict of `check_submission` (the `explanation` free-text field,
derivable from `decision` and `rules_triggered`, is not reproduced). -/
structure DupResult where
  decision : String
  consultant_id : String
  end_client : String
  vendor_name : String
  job_posting_id : String
  rules_triggered : List TriggeredRule
  conflicts : List HistRecord
  rules_checked : Nat
  timestamp : Int
deriving DecidableEq, Repr

def mkRule5ConsultantEntry : TriggeredRule :=
  ⟨5, "Consultant on do-not-submit for this client", "BLOCK", none⟩

def mkRule5MasterEntry : TriggeredRule :=
  ⟨5, "Consultant on master do-not-submit list", "BLOCK", none⟩

def mkRule2Entry (r : HistRecord) : TriggeredRule :=
  ⟨2, "Same consultant + same job posting ID (exact duplicate)", "BLOCK", some r⟩

def mkRule1Entry (r : HistRecord) : TriggeredRule :=
  ⟨1, "Same consultant + same end client within 90 days (right-to-represent risk)", "BLOCK", some r⟩

def mkRule3Entry (r : HistRecord) : TriggeredRule :=
  ⟨3, "Same consultant + same client + different vendor within 30 days (vendor dispute risk)", "WARN", some r⟩

def mkRule4Entry (r : HistRecord) : TriggeredRule :=
  ⟨4, "Different consultant submitted to same role via same vendor (allowed, logged)", "LOG", some r⟩

/-- Rule 5, consultant-level DNS loop. The vendor scope is skipped when the RAW
vendor string is truthy and its normalisation differs from the request vendor
(`if dns_vendor and dns_vendor.upper().strip() != vendor_name: continue`). -/
def rule5ConsultantScan (end_client vendor_name : String)
    (dns : List ConsultantDnsEntry) : List TriggeredRule :=
  dns.filterMap (fun e =>
    if normUp e.company = end_client then
      if e.vendor ≠ "" ∧ normUp e.vendor ≠ vendor_name then none
      else some mkRule5ConsultantEntry
    else none)

/-- Rule 5, master DNS list loop. Here the vendor is normalised BEFORE the
truthiness test (`entry_vendor = entry.get("vendor","").upper().strip()`). -/
def rule5MasterScan (consultant_id end_client vendor_name : String)
    (dns : List MasterDnsEntry) : List TriggeredRule :=
  dns.filterMap (fun e =>
    if e.consultant_id = consultant_id then
      if normUp e.company = end_client then
        if normUp e.vendor ≠ "" ∧ normUp e.vendor ≠ vendor_name then none
        else some mkRule5MasterEntry
      else none
    else none)

/-- Rule 2 loop: same consultant + same job posting id, any date. -/
def rule2Scan (consultant_id job_posting_id : String)
    (history : List HistRecord) : List (TriggeredRule × HistRecord) :=
  (history.filter (fun r =>
    decide (r.consultant_id = consultant_id ∧ r.job_posting_id = job_posting_id))).map
    (fun r => (mkRule2Entry r, r))

/-- Rule 1 loop: same consultant + same end client within 90 days, excluding
the exact-duplicate record rule 2 matches. A present-but-unparseable date on a
record that reaches the parse raises (`date.fromisoformat` outside any
try/except), so the whole check aborts. -/
def rule1Scan (consultant_id end_client job_posting_id : String) (ninety_days_ago : Int) :
    List HistRecord → Except String (List (TriggeredRule × HistRecord))
  | [] => .ok []
  | r :: rest =>
    if r.consultant_id = consultant_id ∧ normUp r.end_client = end_client ∧
        ¬(normUp r.end_client = "" ∨ end_client = "") then
      match r.submission_date with
      | .missing => rule1Scan consultant_id end_client job_posting_id ninety_days_ago rest
      | .malformed => .error "Invalid isoformat string"
      | .valid d =>
        if d ≥ ninety_days_ago ∧ r.job_posting_id ≠ job_posting_id then
          (rule1Scan consultant_id end_client job_posting_id ninety_days_ago rest).map
            (fun l => (mkRule1Entry r, r) :: l)
        else rule1Scan consultant_id end_client job_posting_id ninety_days_ago rest
    else rule1Scan consultant_id end_client job_posting_id ninety_days_ago rest

/-- Rule 3 loop: same consultant + same client + different vendor within 30
days. Same raising behaviour on an unparseable date as rule 1. -/
def rule3Scan (consultant_id end_client vendor_name : String) (thirty_days_ago : Int) :
    List HistRecord → Except String (List (TriggeredRule × HistRecord))
  | [] => .ok []
  | r :: rest =>
    if r.consultant_id = consultant_id ∧ normUp r.end_client = end_client ∧
        normUp r.end_client ≠ "" ∧ normUp r.vendor_name ≠ vendor_name then
      match r.submission_date with
      | .missing => rule3Scan consultant_id end_client vendor_name thirty_days_ago rest
      | .malformed => .error "Invalid isoformat string"
      | .valid d =>
        if d ≥ thirty_days_ago then
          (rule3Scan consultant_id end_client vendor_name thirty_days_ago rest).map
            (fun l => (mkRule3Entry r, r) :: l)
        else rule3Scan consultant_id end_client vendor_name thirty_days_ago rest
    else rule3Scan consultant_id end_client vendor_name thirty_days_ago rest

/-- Rule 4 loop: different consultant + same job posting id + same vendor,
informational only. -/
def rule4Scan (consultant_id job_posting_id vendor_name : String)
    (history : List HistRecord) : List TriggeredRule :=
  (history.filter (fun r =>
    decide (r.consultant_id ≠ consultant_id ∧ r.job_posting_id = job_posting_id ∧
      normUp r.vendor_name = vendor_name))).map mkRule4Entry

/-- `check_submission`. The source threads a mutable `decision` variable through
the five loops: every firing of rules 5/2/1 sets it to BLOCK, rule 3 upgrades
ALLOW to WARN, rule 4 never writes it. Since all BLOCK loops run before rule 3,
that is exactly: BLOCK if any rule-5/2/1 entry fired, else WARN if rule 3 fired,
else ALLOW. `rules_triggered` and `conflicts` hold the entries in evaluation
order (5-consultant, 5-master, 2, 1, 3, 4 and 2, 1, 3 respectively). -/
def check_submission (now : Int) (request : DupRequest) (submission_history : List HistRecord)
    (dns_list : List MasterDnsEntry) : Except String DupResult :=
  let end_client := normUp request.end_client
  let vendor_name := normUp request.vendor_name
  let r5c := rule5ConsultantScan end_client vendor_name request.do_not_submit
  let r5m := rule5MasterScan request.consultant_id end_client vendor_name dns_list
  let r2 := rule2Scan request.consultant_id request.job_posting_id submission_history
  match rule1Scan request.consultant_id end_client request.job_posting_id
      (request.submission_date - 90) submission_history with
  | .error e => .error e
  | .ok r1 =>
    match rule3Scan request.consultant_id end_client vendor_name
        (request.submission_date - 30) submission_history with
    | .error e => .error e
    | .ok r3 =>
      let r4 := rule4Scan request.consultant_id request.job_posting_id vendor_name
        submission_history
      let blockEntries := r5c ++ r5m ++ r2.map Prod.fst ++ r1.map Prod.fst
      let decision :=
        if blockEntries.isEmpty then (if r3.isEmpty then "ALLOW" else "WARN") else "BLOCK"
      .ok {
        decision := decision
        consultant_id := request.consultant_id
        end_client := end_client
        vendor_name := vendor_name
        job_posting_id := request.job_posting_id
        rules_triggered := blockEntries ++ r3.map Prod.fst ++ r4
        conflicts := r2.map Prod.snd ++ r1.map Prod.snd ++ r3.map Prod.snd
        rules_checked := 5
        timestamp := now }

/-- The single JSONL record `_log_check` appends per completed call. -/
structure DupLogEntry where
  event_type : String
  timestamp : Int
  consultant_id : String
  decision : String
  rules_triggered_count : Nat
  end_client : String
  vendor_name : String
  job_posting_id : String
deriving DecidableEq, Repr

def _log_check (result : DupResult) : DupLogEntry :=
  ⟨"duplicate_check", result.timestamp, result.consultant_id, result.decision,
    result.rules_triggered.length, result.end_client, result.vendor_name,
    result.job_posting_id⟩

/-- `check_submission` together with the audit-log writes it performs: the
source calls `_log_check(result)` exactly once, right before returning. -/
def check_submission_logged (now : Int) (request : DupRequest)
    (submission_history : List HistRecord) (dns_list : List MasterDnsEntry) :
    Except String (DupResult × List DupLogEntry) :=
  (check_submission now request submission_history dns_list).map
    (fun r => (r, [_log_check r]))

end DupGate

namespace HardFilters

/- ---------------------------------------------------------------------------
Hard-Filter Gate, src/agents/rick/workspace/skills/scoring/hard_filters.py.
Timestamps are seconds (the source compares `datetime` values; `now` stands for
`datetime.now(timezone.utc)`).
--------------------------------------------------------------------------- -/

/-- The candidate dict. `profile_id` is `none` when the key is absent: the
source falls back to the candidate id
(`candidate.get("profile_id", candidate.get("candidate_id", ""))`). -/
structure Candidate where
  candidate_id : String
  skills : List String
  visa_status : String
  profile_id : Option String
deriving DecidableEq, Repr

/-- The job dict (fields the filters read). -/
structure Job where
  job_id : String
  client_name : String
  required_skills : List String
  visa_requirement : String
deriving DecidableEq, Repr

/-- A submission-history record as read by the hard filters. -/
structure Submission where
  candidate_id : String
  client_name : String
  job_id : String
  profile_id : String
  submitted_date : DateField
  status : String
deriving DecidableEq, Repr

/-- A DNS record from the `dns_list` argument. -/
structure FilterDnsEntry where
  consultant_id : String
  client_name : String
  reason : String
deriving DecidableEq, Repr

/-- The decision dict returned by `apply_hard_filters` (the free-text `reason`
and the `details` payload, both derivable from which rule fired, are not
reproduced). -/
structure FilterResult where
  decision : String
  rule_triggered : String
deriving DecidableEq, Repr

/-- Rule 1: `_check_dns_list` — first DNS entry matching this candidate id and
client name (case-insensitive). -/
def _check_dns_list (candidate : Candidate) (job : Job) (dns_list : List FilterDnsEntry) :
    Option FilterDnsEntry :=
  dns_list.find? (fun e =>
    decide (e.consultant_id = candidate.candidate_id ∧
      pyLower e.client_name = pyLower job.client_name))

/-- Rule 2: `_check_category_mismatch` — the number of required skills found
(case-insensitively) among the candidate's skills; fires when the required set
is non-empty and that count is zero. Returns the overlap and required counts
the source puts in its details dict. -/
def _check_category_mismatch (candidate : Candidate) (job : Job) : Option (Nat × Nat) :=
  let candidate_skills := candidate.skills.map pyLower
  let required_skills := job.required_skills.map pyLower
  if required_skills.isEmpty then none
  else
    let exact_matches := (required_skills.filter (fun req => req ∈ candidate_skills)).length
    if exact_matches = 0 then some (0, required_skills.length) else none

/-- The `excluded_visas` accumulation of `_check_visa_hard_block` for one
phrase: every part after an occurrence of the phrase contributes its first
whitespace-token, lowered, with trailing commas stripped. A part with no
token at all (e.g. the requirement ends in the phrase) raises IndexError. -/
def extractExcluded (visa_requirement phrase : String) : Except String (List String) :=
  match pySplitOn visa_requirement phrase with
  | [] => .ok []
  | _ :: rest =>
    rest.mapM (fun part =>
      match pySplitWs part with
      | [] => .error "list index out of range"
      | w :: _ => .ok (rstripComma (pyLower w)))

/-- Rule 3: `_check_visa_hard_block`. -/
def _check_visa_hard_block (candidate : Candidate) (job : Job) : Except String Bool :=
  let candidate_visa := pyLower candidate.visa_status
  let visa_requirement := pyLower job.visa_requirement
  if visa_requirement = "any" ∨ visa_requirement = "unknown" ∨ visa_requirement = "" then
    .ok false
  else do
    let e1 ← extractExcluded visa_requirement "no "
    let e2 ← extractExcluded visa_requirement "exclude "
    let e3 ← extractExcluded visa_requirement "not "
    let excluded_visas := e1 ++ e2 ++ e3
    .ok (candidate_visa ∈ excluded_visas ∨
      listIsInfixOf ("no " ++ candidate_visa).data visa_requirement.data)

/-- Rule 4: `_check_already_submitted` — first record that is either an exact
job-id duplicate (no date read) or a same-client submission strictly inside
the last 90 days; a record whose date fails to parse is skipped by the
client branch (`try/except: pass`). -/
def _check_already_submitted (now : Int) (candidate : Candidate) (job : Job) :
    List Submission → Option String
  | [] => none
  | s :: rest =>
    if s.candidate_id = candidate.candidate_id ∧ s.job_id = job.job_id then
      some "Exact duplicate: Same candidate to same job posting"
    else if s.candidate_id = candidate.candidate_id ∧
        pyLower s.client_name = pyLower job.client_name then
      match s.submitted_date with
      | .valid d =>
        if d > now - 90 * 86400 then some "Recent submission to same client within 90 days"
        else _check_already_submitted now candidate job rest
      | _ => _check_already_submitted now candidate job rest
    else _check_already_submitted now candidate job rest

/-- Start of the current UTC day, in seconds
(`datetime.combine(now.date(), datetime.min.time())`). -/
def todayStart (now : Int) : Int := 86400 * Int.fdiv now 86400

/-- Rule 5: `_check_daily_limit` — submissions by this profile strictly after
the start of today; records with unparseable dates are skipped. -/
def _check_daily_limit (now : Int) (candidate : Candidate)
    (submission_history : List Submission) : Option Nat :=
  let profile_id := candidate.profile_id.getD candidate.candidate_id
  if profile_id = "" then none
  else
    let applications_today := (submission_history.filter (fun s =>
      decide (s.profile_id = profile_id) &&
        match s.submitted_date with
        | .valid d => decide (d > todayStart now)
        | _ => false)).length
    if applications_today ≥ 5 then some applications_today else none

/-- The one JSONL record `_log_filter_decision` appends. -/
structure FilterLogEntry where
  event_type : String
  timestamp : Int
  candidate_id : String
  job_id : String
  decision : String
  rule_triggered : String
deriving DecidableEq, Repr

def _log_filter_decision (now : Int) (candidate : Candidate) (job : Job)
    (decision : FilterResult) : FilterLogEntry :=
  ⟨"hard_filter_decision", now, candidate.candidate_id, job.job_id,
    decision.decision, decision.rule_triggered⟩

/-- `apply_hard_filters`, first-match-wins over the five rules, paired with the
list of audit-log records the call writes. NOTE: the source calls
`_log_filter_decision` only in the final PASS branch — the four early returns
(ELIMINATE/SKIP) write nothing, although the module docstring says every
filter decision is logged. -/
def apply_hard_filters (now : Int) (candidate : Candidate) (job : Job)
    (submission_history : List Submission) (dns_list : List FilterDnsEntry) :
    Except String (FilterResult × List FilterLogEntry) :=
  match _check_dns_list candidate job dns_list with
  | some _ => .ok (⟨"ELIMINATE", "DNS_LIST_CONFLICT"⟩, [])
  | none =>
  match _check_category_mismatch candidate job with
  | some _ => .ok (⟨"ELIMINATE", "CATEGORY_MISMATCH"⟩, [])
  | none =>
  match _check_visa_hard_block candidate job with
  | .error e => .error e
  | .ok true => .ok (⟨"ELIMINATE", "VISA_HARD_BLOCK"⟩, [])
  | .ok false =>
  match _check_already_submitted now candidate job submission_history with
  | some _ => .ok (⟨"ELIMINATE", "ALREADY_SUBMITTED"⟩, [])
  | none =>
  match _check_daily_limit now candidate submission_history with
  | some _ => .ok (⟨"SKIP", "DAILY_LIMIT_REACHED"⟩, [])
  | none =>
    let result : FilterResult := ⟨"PASS", ""⟩
    .ok (result, [_log_filter_decision now candidate job result])

end HardFilters

namespace AntiCann

/- ---------------------------------------------------------------------------
Anti-Cannibalization Gate,
src/agents/rick/workspace/skills/scoring/anti_cannibalization.py.
Timestamps are seconds; `now` stands for `datetime.now(timezone.utc)`.
--------------------------------------------------------------------------- -/

/-- The proposed application dict. -/
structure ProposedApp where
  candidate_id : String
  profile_id : String
  job_id : String
  client_name : String
  vendor_name : String
deriving DecidableEq, Repr

/-- An application-history record. -/
structure AppRecord where
  application_id : String
  candidate_id : String
  profile_id : String
  job_id : String
  client_name : String
  vendor_name : String
  submitted_date : DateField
  status : String
deriving DecidableEq, Repr

/-- The decision dict returned by `check_cannibalization` (free-text
`explanation` and `details` payloads are not reproduced). -/
structure CannResult where
  decision : String
  rule_triggered : String
deriving DecidableEq, Repr

/-- Rule 1: `_check_rule_1_duplicate_job_posting` — same candidate already
applied to this job (no dates involved; the loop returns on the first hit,
so only whether some record matches is observable here). -/
def _check_rule_1_duplicate_job_posting (proposed_app : ProposedApp)
    (application_history : List AppRecord) : Bool :=
  application_history.any (fun app =>
    decide (app.candidate_id = proposed_app.candidate_id ∧ app.job_id = proposed_app.job_id))

/-- Rule 2: `_check_rule_2_competing_submissions` — same candidate, client and
vendor (case-insensitive) strictly inside the last 7 days; unparseable dates
are skipped (`try/except: pass`). -/
def _check_rule_2_competing_submissions (now : Int) (proposed_app : ProposedApp)
    (application_history : List AppRecord) : Bool :=
  application_history.any (fun app =>
    decide (app.candidate_id = proposed_app.candidate_id ∧
      pyLower app.client_name = pyLower proposed_app.client_name ∧
      pyLower app.vendor_name = pyLower proposed_app.vendor_name) &&
    match app.submitted_date with
    | .valid d => decide (d > now - 7 * 86400)
    | _ => false)

/-- Rule 3: `_check_rule_3_profile_consistency` — same candidate and client
with two truthy, different profile ids. -/
def _check_rule_3_profile_consistency (proposed_app : ProposedApp)
    (application_history : List AppRecord) : Bool :=
  application_history.any (fun app =>
    decide (app.candidate_id = proposed_app.candidate_id ∧
      pyLower app.client_name = pyLower proposed_app.client_name ∧
      app.profile_id ≠ "" ∧ proposed_app.profile_id ≠ "" ∧
      app.profile_id ≠ proposed_app.profile_id))

/-- The count `_check_rule_4_diversify_clients` takes: applications by this
candidate to this client strictly after the start of the current UTC day;
unparseable dates are skipped. -/
def appsToClientToday (now : Int) (proposed_app : ProposedApp)
    (application_history : List AppRecord) : Nat :=
  (application_history.filter (fun app =>
    decide (app.candidate_id = proposed_app.candidate_id ∧
      pyLower app.client_name = pyLower proposed_app.client_name) &&
    match app.submitted_date with
    | .valid d => decide (d > HardFilters.todayStart now)
    | _ => false)).length

/-- Rule 4: `_check_rule_4_diversify_clients` — blocks at 3 or more
applications to the same client today. -/
def _check_rule_4_diversify_clients (now : Int) (proposed_app : ProposedApp)
    (application_history : List AppRecord) : Bool :=
  appsToClientToday now proposed_app application_history ≥ 3

/-- The one JSONL record `_log_cannibalization_decision` appends. -/
structure CannLogEntry where
  event_type : String
  timestamp : Int
  candidate_id : String
  job_id : String
  client_name : String
  decision : String
  rule_triggered : String
deriving DecidableEq, Repr

def _log_cannibalization_decision (now : Int) (proposed_app : ProposedApp)
    (decision : CannResult) : CannLogEntry :=
  ⟨"cannibalization_check", now, proposed_app.candidate_id, proposed_app.job_id,
    proposed_app.client_name, decision.decision, decision.rule_triggered⟩

/-- `check_cannibalization`, first-match-wins over the four rules, paired with
the audit-log records written. NOTE: the source calls
`_log_cannibalization_decision` only in the final ALLOW branch — the four
BLOCK returns write nothing, although the module docstring says every
cannibalization decision is logged. -/
def check_cannibalization (now : Int) (proposed_app : ProposedApp)
    (application_history : List AppRecord) : CannResult × List CannLogEntry :=
  if _check_rule_1_duplicate_job_posting proposed_app application_history then
    (⟨"BLOCK", "ONE_CANDIDATE_PER_JOB"⟩, [])
  else if _check_rule_2_competing_submissions now proposed_app application_history then
    (⟨"BLOCK", "ONE_CANDIDATE_PER_CLIENT_PER_VENDOR_PER_WEEK"⟩, [])
  else if _check_rule_3_profile_consistency proposed_app application_history then
    (⟨"BLOCK", "ONE_PROFILE_PER_CLIENT_EVER"⟩, [])
  else if _check_rule_4_diversify_clients now proposed_app application_history then
    (⟨"BLOCK", "DIVERSIFY_ACROSS_CLIENTS"⟩, [])
  else
    let result : CannResult := ⟨"ALLOW", ""⟩
    (result, [_log_cannibalization_decision now proposed_app result])

end AntiCann

namespace Router

/- ---------------------------------------------------------------------------
Message Routing Gate, src/agents/em/workspace/skills/routing/message_router.py.
Timestamps are seconds; `now` stands for `datetime.now(timezone.utc)`.
--------------------------------------------------------------------------- -/

/-- One value of the `agent_states` dict of `SystemState`. -/
structure AgentInfo where
  state : String
  last_activity : Int
  queue_depth : Int
deriving DecidableEq, Repr

/-- `SystemState`: the `agent_states` dict is modelled as an association list
(dict keys are unique); `data_freshness` holds the one key the source reads. -/
structure SystemState where
  agent_states : List (String × AgentInfo)
  z_data_age_minutes : Int
deriving DecidableEq, Repr

/-- `self.agent_states.get(agent_id)`. -/
def lookupAgent (state : SystemState) (agent_id : String) : Option AgentInfo :=
  (state.agent_states.find? (fun p => p.1 = agent_id)).map Prod.snd

/-- `SystemState.agent_is_healthy`: unhealthy when no activity for more than
1800 seconds or the state is ERROR/DEAD; an unknown agent defaults to state
UNKNOWN and last activity `now`, hence counts as healthy. -/
def agent_is_healthy (now : Int) (state : SystemState) (agent_id : String) : Bool :=
  let info := lookupAgent state agent_id
  let st := (info.map AgentInfo.state).getD "UNKNOWN"
  let last_activity := (info.map AgentInfo.last_activity).getD now
  if now - last_activity > 1800 then false
  else if st = "ERROR" ∨ st = "DEAD" then false
  else true

/-- `SystemState.agent_queue_depth`. -/
def agent_queue_depth (state : SystemState) (agent_id : String) : Int :=
  ((lookupAgent state agent_id).map AgentInfo.queue_depth).getD 0

/-- `SystemState.z_data_is_fresh`. -/
def z_data_is_fresh (state : SystemState) (max_age_minutes : Int) : Bool :=
  state.z_data_age_minutes ≤ max_age_minutes

/-- `SystemState.update_agent_activity`: writes the given timestamp into the
from-agent's `last_activity`, but only when that agent id is a key of
`agent_states`. -/
def update_agent_activity (state : SystemState) (agent_id : String) (timestamp : Int) :
    SystemState :=
  if (state.agent_states.find? (fun p => p.1 = agent_id)).isSome then
    { state with agent_states := state.agent_states.map (fun p =>
        if p.1 = agent_id then (p.1, { p.2 with last_activity := timestamp }) else p) }
  else state

/-- A message envelope. Keys the source reads with `.get(key, default)` are
plain fields here, with an absent key represented by the default the source
supplies (`from`/`to` → UNKNOWN, `type` → REQUEST, `priority` → NORMAL,
`payload.severity` → MEDIUM). `timestamp` is `none` when absent; the source
then substitutes `now`. -/
structure Envelope where
  fromAgent : String
  toAgent : String
  type : String
  priority : String
  timestamp : Option Int
  payload_severity : String
  reference : String
deriving DecidableEq, Repr

/-- The routing-rules configuration (`routing_rules.json`). Only membership of
the target agent in `dependency_graph` is observable in
`evaluate_dependency_graph`: every reachable branch with a known target
returns True, the unknown-target branch returns False. -/
structure RoutingRules where
  dependency_graph_agents : List String
deriving DecidableEq, Repr

/-- `evaluate_dependency_graph` (its `can_route` component; the reason strings
vary but the boolean is `to_agent in dep_graph`). -/
def evaluate_dependency_graph (to_agent : String) (rules : RoutingRules) : Bool :=
  to_agent ∈ rules.dependency_graph_agents

/-- `check_z_safety_gate` (its `can_route` component). -/
def check_z_safety_gate (state : SystemState) : Bool :=
  let z_state := ((lookupAgent state "Z").map AgentInfo.state).getD "UNKNOWN"
  ¬(z_state = "DEAD" ∨ z_state = "ERROR")

/-- The decision fields produced inside `evaluate_rules` (severity and channel
are absent, modelled "", on branches that do not set them). -/
structure RouteCore where
  routing_decision : String
  severity : String
  target : String
  channel : String
deriving DecidableEq, Repr

/-- `evaluate_rules`: the ordered if/return chain over the seven rules, with
ROUTE_IMMEDIATELY as the default. Rule 1 falls through when the safety gate
passes (it is not an elif on the later rules). -/
def evaluate_rules (now : Int) (envelope : Envelope) (state : SystemState)
    (rules : RoutingRules) : RouteCore :=
  if envelope.type = "SUBMISSION_REQUEST" ∧ ¬check_z_safety_gate state then
    ⟨"ESCALATE_TO_HUMAN", "CRITICAL", "human", ""⟩
  else if envelope.priority = "URGENT" then
    if agent_is_healthy now state envelope.toAgent then
      ⟨"ROUTE_IMMEDIATELY", "", envelope.toAgent, ""⟩
    else
      ⟨"ESCALATE_TO_HUMAN", "CRITICAL", "human", ""⟩
  else if envelope.type = "ALERT" ∧
      (envelope.payload_severity = "CRITICAL" ∨ envelope.payload_severity = "HIGH") then
    ⟨"ESCALATE_TO_HUMAN", envelope.payload_severity, "human", "#alerts"⟩
  else if ¬agent_is_healthy now state envelope.toAgent then
    ⟨"ESCALATE_TO_HUMAN", "HIGH", "human", ""⟩
  else if ¬evaluate_dependency_graph envelope.toAgent rules then
    ⟨"HOLD_PENDING_INPUT", "", envelope.toAgent, ""⟩
  else if envelope.toAgent = "Rick" ∧ agent_queue_depth state "Rick" > 30 then
    ⟨"HOLD_PENDING_CAPACITY", "", "Rick", ""⟩
  else if envelope.toAgent = "Z" ∧ envelope.type = "SUBMISSION_REQUEST" ∧
      ¬z_data_is_fresh state 240 then
    ⟨"HOLD_PENDING_INPUT", "", "Z", ""⟩
  else
    ⟨"ROUTE_IMMEDIATELY", "", envelope.toAgent, ""⟩

/-- The full decision dict `route_message` returns after adding metadata.
`message_id` (formatted from epoch seconds) is kept as the raw seconds. -/
structure RoutingDecision where
  routing_decision : String
  severity : String
  target : String
  channel : String
  message_id : Int
  original_from : String
  original_to : String
  message_type : String
  priority : String
  reference : String
  timestamp : Int
  sla : String
deriving DecidableEq, Repr

/-- One record of `_log_routing_decision` (it writes one line to the routing
log and one to the agent feed, with overlapping fields). -/
structure RouteLogEntry where
  sink : String
  event_type : String
  timestamp : Int
  fromAgent : String
  toAgent : String
  routing_decision : String
  reference : String
deriving DecidableEq, Repr

def _log_routing_decision (decision : RoutingDecision) (envelope : Envelope) :
    List RouteLogEntry :=
  [⟨"routing-log", "routing_decision", decision.timestamp, envelope.fromAgent,
      envelope.toAgent, decision.routing_decision, envelope.reference⟩,
    ⟨"agent-feed", "message", decision.timestamp, envelope.fromAgent,
      envelope.toAgent, decision.routing_decision, envelope.reference⟩]

/-- `route_message`: evaluate the rules, attach metadata and SLA, log, then
update the system state (the source mutates the `SystemState` it was handed;
the updated state is returned explicitly here). -/
def route_message (now : Int) (envelope : Envelope) (state : SystemState)
    (rules : RoutingRules) : RoutingDecision × SystemState × List RouteLogEntry :=
  let core := evaluate_rules now envelope state rules
  let sla :=
    if core.routing_decision = "ROUTE_IMMEDIATELY" then
      if envelope.priority = "URGENT" then "Response within 15 minutes"
      else if envelope.priority = "HIGH" then "Response within 30 minutes"
      else "Response within 4 hours"
    else ""
  let decision : RoutingDecision :=
    { routing_decision := core.routing_decision
      severity := core.severity
      target := core.target
      channel := core.channel
      message_id := now
      original_from := envelope.fromAgent
      original_to := envelope.toAgent
      message_type := envelope.type
      priority := envelope.priority
      reference := envelope.reference
      timestamp := now
      sla := sla }
  let logs := _log_routing_decision decision envelope
  let state' := update_agent_activity state envelope.fromAgent (envelope.timestamp.getD now)
  (decision, state', logs)

end Router

namespace DupGate

/-- Severity reduction BLOCK > WARN > LOG/none over a triggered-rule list. -/
def sevMax (l : List TriggeredRule) : String :=
  if l.any (fun t => decide (t.severity = "BLOCK")) then "BLOCK"
  else if l.any (fun t => decide (t.severity = "WARN")) then "WARN"
  else "ALLOW"

/-- The result with its wall-clock field cleared, used to express which parts
of `check_submission` output are independent of the time of evaluation. -/
def stripTimestamp (r : DupResult) : DupResult := { r with timestamp := 0 }

theorem mem_rule5ConsultantScan {ec vn : String} {dns : List ConsultantDnsEntry}
    {t : TriggeredRule} (ht : t ∈ rule5ConsultantScan ec vn dns) :
    t = mkRule5ConsultantEntry := by
  simp only [rule5ConsultantScan, List.mem_filterMap] at ht
  obtain ⟨e, -, he⟩ := ht
  split at he
  · split at he
    · cases he
    · exact (Option.some.inj he).symm
  · cases he

theorem mem_rule5MasterScan {cid ec vn : String} {dns : List MasterDnsEntry}
    {t : TriggeredRule} (ht : t ∈ rule5MasterScan cid ec vn dns) :
    t = mkRule5MasterEntry := by
  simp only [rule5MasterScan, List.mem_filterMap] at ht
  obtain ⟨e, -, he⟩ := ht
  split at he
  · split at he
    · split at he
      · cases he
      · exact (Option.some.inj he).symm
    · cases he
  · cases he

theorem mem_rule2Scan {cid jid : String} {hist : List HistRecord}
    {p : TriggeredRule × HistRecord} (hp : p ∈ rule2Scan cid jid hist) :
    p.1 = mkRule2Entry p.2 := by
  simp only [rule2Scan, List.mem_map] at hp
  obtain ⟨r, -, hr⟩ := hp
  rw [← hr]

theorem rule1Scan_ok_mem {cid ec jid : String} {n : Int} :
    ∀ {hist : List HistRecord} {out : List (TriggeredRule × HistRecord)},
      rule1Scan cid ec jid n hist = .ok out →
      ∀ {p : TriggeredRule × HistRecord}, p ∈ out →
        p.1 = mkRule1Entry p.2 ∧ p.2.job_posting_id ≠ jid
  | [], out, h, p, hp => by
    simp only [rule1Scan] at h
    cases h
    cases hp
  | r :: rest, out, h, p, hp => by
    simp only [rule1Scan] at h
    split at h
    · split at h
      · exact rule1Scan_ok_mem h hp
      · cases h
      · rename_i hcond _ d hd
        split at h
        · rename_i hwin
          cases hrec : rule1Scan cid ec jid n rest with
          | error e => rw [hrec] at h; cases h
          | ok l =>
            rw [hrec] at h
            cases h
            rcases List.mem_cons.1 hp with hph | hpt
            · subst hph
              exact ⟨rfl, hwin.2⟩
            · exact rule1Scan_ok_mem hrec hpt
        · exact rule1Scan_ok_mem h hp
    · exact rule1Scan_ok_mem h hp

theorem rule3Scan_ok_mem {cid ec vn : String} {n : Int} :
    ∀ {hist : List HistRecord} {out : List (TriggeredRule × HistRecord)},
      rule3Scan cid ec vn n hist = .ok out →
      ∀ {p : TriggeredRule × HistRecord}, p ∈ out → p.1 = mkRule3Entry p.2
  | [], out, h, p, hp => by
    simp only [rule3Scan] at h
    cases h
    cases hp
  | r :: rest, out, h, p, hp => by
    simp only [rule3Scan] at h
    split at h
    · split at h
      · exact rule3Scan_ok_mem h hp
      · cases h
      · split at h
        · cases hrec : rule3Scan cid ec vn n rest with
          | error e => rw [hrec] at h; cases h
          | ok l =>
            rw [hrec] at h
            cases h
            rcases List.mem_cons.1 hp with hph | hpt
            · subst hph
              exact rfl
            · exact rule3Scan_ok_mem hrec hpt
        · exact rule3Scan_ok_mem h hp
    · exact rule3Scan_ok_mem h hp

theorem mem_rule4Scan {cid jid vn : String} {hist : List HistRecord}
    {t : TriggeredRule} (ht : t ∈ rule4Scan cid jid vn hist) :
    ∃ r, t = mkRule4Entry r := by
  simp only [rule4Scan, List.mem_map] at ht
  obtain ⟨r, -, hr⟩ := ht
  exact ⟨r, hr.symm⟩

theorem check_submission_ok_elim {now : Int} {req : DupRequest} {hist : List HistRecord}
    {dns : List MasterDnsEntry} {res : DupResult}
    (h : check_submission now req hist dns = .ok res) :
    ∃ r1 r3,
      rule1Scan req.consultant_id (normUp req.end_client) req.job_posting_id
          (req.submission_date - 90) hist = .ok r1 ∧
      rule3Scan req.consultant_id (normUp req.end_client) (normUp req.vendor_name)
          (req.submission_date - 30) hist = .ok r3 ∧
      res = { decision :=
                if (rule5ConsultantScan (normUp req.end_client) (normUp req.vendor_name)
                      req.do_not_submit ++
                    rule5MasterScan req.consultant_id (normUp req.end_client)
                      (normUp req.vendor_name) dns ++
                    (rule2Scan req.consultant_id req.job_posting_id hist).map Prod.fst ++
                    r1.map Prod.fst).isEmpty then
                  (if r3.isEmpty then "ALLOW" else "WARN")
                else "BLOCK"
              consultant_id := req.consultant_id
              end_client := normUp req.end_client
              vendor_name := normUp req.vendor_name
              job_posting_id := req.job_posting_id
              rules_triggered :=
                (rule5ConsultantScan (normUp req.end_client) (normUp req.vendor_name)
                    req.do_not_submit ++
                  rule5MasterScan req.consultant_id (normUp req.end_client)
                    (normUp req.vendor_name) dns ++
                  (rule2Scan req.consultant_id req.job_posting_id hist).map Prod.fst ++
                  r1.map Prod.fst) ++ r3.map Prod.fst ++
                  rule4Scan req.consultant_id req.job_posting_id (normUp req.vendor_name) hist
              conflicts :=
                (rule2Scan req.consultant_id req.job_posting_id hist).map Prod.snd ++
                  r1.map Prod.snd ++ r3.map Prod.snd
              rules_checked := 5
              timestamp := now } := by
  simp only [check_submission] at h
  split at h
  · exact Except.noConfusion h
  · rename_i r1 h1
    split at h
    · exact Except.noConfusion h
    · rename_i r3 h3
      exact ⟨r1, r3, h1, h3, (Except.ok.inj h).symm⟩

theorem sevMax_shape (B W L : List TriggeredRule)
    (hB : ∀ t ∈ B, t.severity = "BLOCK")
    (hW : ∀ t ∈ W, t.severity = "WARN")
    (hL : ∀ t ∈ L, t.severity = "LOG") :
    sevMax (B ++ W ++ L) =
      if B.isEmpty then (if W.isEmpty then "ALLOW" else "WARN") else "BLOCK" := by
  have hWb : W.any (fun t => decide (t.severity = "BLOCK")) = false := by
    simp only [List.any_eq_false, decide_eq_true_eq]
    intro t ht
    rw [hW t ht]
    decide
  have hLb : L.any (fun t => decide (t.severity = "BLOCK")) = false := by
    simp only [List.any_eq_false, decide_eq_true_eq]
    intro t ht
    rw [hL t ht]
    decide
  have hLw : L.any (fun t => decide (t.severity = "WARN")) = false := by
    simp only [List.any_eq_false, decide_eq_true_eq]
    intro t ht
    rw [hL t ht]
    decide
  cases B with
  | cons b bs =>
    have hb : b.severity = "BLOCK" := hB b (List.mem_cons_self b bs)
    simp [sevMax, hb]
  | nil =>
    cases W with
    | nil => simp [sevMax, hLb, hLw]
    | cons w ws =>
      have hw : w.severity = "WARN" := hW w (List.mem_cons_self w ws)
      simp only [sevMax, List.nil_append, List.any_append, hWb, hLb, Bool.or_false,
        Bool.false_or, if_neg Bool.false_ne_true]
      simp [hw]

theorem check_submission_sevMax {now : Int} {req : DupRequest} {hist : List HistRecord}
    {dns : List MasterDnsEntry} {res : DupResult}
    (h : check_submission now req hist dns = .ok res) :
    res.decision = sevMax res.rules_triggered := by
  obtain ⟨r1, r3, h1, h3, hres⟩ := check_submission_ok_elim h
  subst hres
  rw [sevMax_shape _ _ _ ?hB ?hW ?hL]
  case hB =>
    intro t ht
    rcases List.mem_append.1 ht with h125 | h1m
    · rcases List.mem_append.1 h125 with h12 | h2m
      · rcases List.mem_append.1 h12 with h5c | h5m
        · rw [mem_rule5ConsultantScan h5c]
          rfl
        · rw [mem_rule5MasterScan h5m]
          rfl
      · obtain ⟨p, hp, hpt⟩ := List.mem_map.1 h2m
        rw [← hpt, mem_rule2Scan hp]
        rfl
    · obtain ⟨p, hp, hpt⟩ := List.mem_map.1 h1m
      rw [← hpt, (rule1Scan_ok_mem h1 hp).1]
      rfl
  case hW =>
    intro t ht
    obtain ⟨p, hp, hpt⟩ := List.mem_map.1 ht
    rw [← hpt, rule3Scan_ok_mem h3 hp]
    rfl
  case hL =>
    intro t ht
    obtain ⟨r, hr⟩ := mem_rule4Scan ht
    rw [hr]
    rfl
  cases r3 <;> rfl

theorem rule1Scan_empty_client {cid jid : String} {n : Int} :
    ∀ hist : List HistRecord, rule1Scan cid "" jid n hist = .ok []
  | [] => rfl
  | r :: rest => by
    simp only [rule1Scan]
    rw [if_neg]
    · exact rule1Scan_empty_client rest
    · rintro ⟨-, -, hne⟩
      exact hne (Or.inr (by trivial))

theorem rule1Scan_cons_missing {cid ec jid : String} {n : Int} {r : HistRecord}
    {hist : List HistRecord} (hr : r.submission_date = .missing) :
    rule1Scan cid ec jid n (r :: hist) = rule1Scan cid ec jid n hist := by
  simp only [rule1Scan, hr]
  split <;> rfl

theorem rule3Scan_cons_missing {cid ec vn : String} {n : Int} {r : HistRecord}
    {hist : List HistRecord} (hr : r.submission_date = .missing) :
    rule3Scan cid ec vn n (r :: hist) = rule3Scan cid ec vn n hist := by
  simp only [rule3Scan, hr]
  split <;> rfl

theorem rule2Scan_cons_other {cid jid : String} {r : HistRecord} {hist : List HistRecord}
    (hr : r.job_posting_id ≠ jid) :
    rule2Scan cid jid (r :: hist) = rule2Scan cid jid hist := by
  simp only [rule2Scan, List.filter_cons]
  rw [if_neg]
  simp only [decide_eq_true_eq, not_and]
  intro _
  exact hr

theorem rule4Scan_cons_other {cid jid vn : String} {r : HistRecord} {hist : List HistRecord}
    (hr : r.job_posting_id ≠ jid) :
    rule4Scan cid jid vn (r :: hist) = rule4Scan cid jid vn hist := by
  simp only [rule4Scan, List.filter_cons]
  rw [if_neg]
  simp only [decide_eq_true_eq, not_and]
  intro _ h
  exact absurd h hr

theorem mem_rule2Scan_intro {cid jid : String} {hist : List HistRecord} {r : HistRecord}
    (hr : r ∈ hist) (hc : r.consultant_id = cid) (hj : r.job_posting_id = jid) :
    (mkRule2Entry r, r) ∈ rule2Scan cid jid hist := by
  simp only [rule2Scan, List.mem_map]
  exact ⟨r, List.mem_filter.2 ⟨hr, by simp [hc, hj]⟩, rfl⟩

theorem mem_rule5ConsultantScan_intro {ec vn : String} {dns : List ConsultantDnsEntry}
    {e : ConsultantDnsEntry} (he : e ∈ dns) (hco : normUp e.company = ec)
    (hv : e.vendor = "") :
    mkRule5ConsultantEntry ∈ rule5ConsultantScan ec vn dns := by
  simp only [rule5ConsultantScan, List.mem_filterMap]
  refine ⟨e, he, ?_⟩
  rw [if_pos hco, if_neg]
  rintro ⟨hne, -⟩
  exact hne hv

theorem rule5ConsultantScan_all_scoped {ec : String} {dns : List ConsultantDnsEntry}
    (h : ∀ e ∈ dns, normUp e.vendor ≠ "") :
    rule5ConsultantScan ec "" dns = [] := by
  simp only [rule5ConsultantScan, List.filterMap_eq_nil_iff]
  intro e he
  split
  · rw [if_pos ⟨fun hv => h e he (by rw [hv]; decide), h e he⟩]
  · rfl

theorem rule5MasterScan_all_scoped {cid ec : String} {dns : List MasterDnsEntry}
    (h : ∀ e ∈ dns, normUp e.vendor ≠ "") :
    rule5MasterScan cid ec "" dns = [] := by
  simp only [rule5MasterScan, List.filterMap_eq_nil_iff]
  intro e he
  split
  · split
    · rw [if_pos ⟨h e he, h e he⟩]
    · rfl
  · rfl

end DupGate

namespace HardFilters

theorem already_submitted_cons_skip {now : Int} {candidate : Candidate} {job : Job}
    {s : Submission} {hist : List Submission}
    (hmal : s.submitted_date = .malformed ∨ s.submitted_date = .missing)
    (hnd : ¬(s.candidate_id = candidate.candidate_id ∧ s.job_id = job.job_id)) :
    _check_already_submitted now candidate job (s :: hist) =
      _check_already_submitted now candidate job hist := by
  simp only [_check_already_submitted]
  rw [if_neg hnd]
  split
  · rcases hmal with hm | hm <;> rw [hm]
  · rfl

theorem daily_limit_cons_skip {now : Int} {candidate : Candidate}
    {s : Submission} {hist : List Submission}
    (hmal : s.submitted_date = .malformed ∨ s.submitted_date = .missing) :
    _check_daily_limit now candidate (s :: hist) = _check_daily_limit now candidate hist := by
  simp only [_check_daily_limit, List.filter_cons]
  rcases hmal with hm | hm <;> rw [hm] <;> simp

end HardFilters

namespace Router

theorem find_map_update_ne (l : List (String × AgentInfo)) (id a : String) (t : Int)
    (h : a ≠ id) :
    List.find? (fun p => decide (p.1 = a))
        (l.map (fun p => if p.1 = id then (p.1, { p.2 with last_activity := t }) else p)) =
      List.find? (fun p => decide (p.1 = a)) l := by
  induction l with
  | nil => rfl
  | cons p rest ih =>
    by_cases hp : p.1 = id
    · have hpa : ¬(p.1 = a) := fun hc => h (hc.symm.trans hp)
      simp [List.find?_cons, hp, hpa, Ne.symm h, ih]
    · by_cases hpa : p.1 = a
      · simp [List.find?_cons, hp, hpa, h]
      · simp [List.find?_cons, hp, hpa, ih]

theorem find_map_update_self (l : List (String × AgentInfo)) (id : String) (t : Int) :
    List.find? (fun p => decide (p.1 = id))
        (l.map (fun p => if p.1 = id then (p.1, { p.2 with last_activity := t }) else p)) =
      (List.find? (fun p => decide (p.1 = id)) l).map
        (fun p => (p.1, { p.2 with last_activity := t })) := by
  induction l with
  | nil => rfl
  | cons p rest ih =>
    by_cases hp : p.1 = id
    · simp [List.find?_cons, hp]
    · simp [List.find?_cons, hp, ih]

theorem lookupAgent_update_ne (state : SystemState) (id a : String) (t : Int) (h : a ≠ id) :
    lookupAgent (update_agent_activity state id t) a = lookupAgent state a := by
  unfold update_agent_activity
  split
  · unfold lookupAgent
    simp only []
    rw [find_map_update_ne state.agent_states id a t h]
  · rfl

theorem lookupAgent_update_self (state : SystemState) (id : String) (t : Int) :
    lookupAgent (update_agent_activity state id t) id =
      (lookupAgent state id).map (fun i => { i with last_activity := t }) := by
  unfold update_agent_activity
  split
  · unfold lookupAgent
    simp only []
    rw [find_map_update_self state.agent_states id t]
    cases List.find? (fun p => decide (p.1 = id)) state.agent_states <;> rfl
  · rename_i hnone
    rw [Option.not_isSome_iff_eq_none] at hnone
    unfold lookupAgent
    rw [hnone]
    rfl

end Router

/-- C1 (code bug): at the failing inputs below, the hard-filter gate returns an
ELIMINATE decision and the anti-cannibalization gate a BLOCK decision while
writing zero audit records — their sources call their log helpers only in the
PASS/ALLOW branch, contradicting the module docstrings, which promise that
every decision is logged. -/
theorem C1_eliminate_and_block_write_no_audit_record :
    HardFilters.apply_hard_filters 1000000
        ⟨"C-1", ["java"], "H1B", some "P-1"⟩ ⟨"J-1", "Acme", ["python"], "any"⟩ [] [] =
      .ok (⟨"ELIMINATE", "CATEGORY_MISMATCH"⟩, []) ∧
    AntiCann.check_cannibalization 1000000
        ⟨"C-1", "P-1", "J-1", "Acme", "V-1"⟩
        [⟨"APP-1", "C-1", "P-1", "J-1", "Acme", "V-1", .valid 999000, "PENDING"⟩] =
      (⟨"BLOCK", "ONE_CANDIDATE_PER_JOB"⟩, []) := by
  constructor <;> decide

/-- C2 (counterexample): the message routing gate does mutate the SystemState
it is given — after routing a message from Jay, Jay's last_activity has been
overwritten with the envelope timestamp, so the returned state differs from
the input state. -/
theorem C2_routing_state_mutation_counterexample :
    (Router.route_message 5000
        ⟨"Jay", "Z", "STATUS_UPDATE", "NORMAL", some 4000, "MEDIUM", "R-1"⟩
        ⟨[("Jay", ⟨"ACTIVE", 0, 0⟩), ("Z", ⟨"ACTIVE", 0, 0⟩)], 0⟩ ⟨["Z", "Jay"]⟩).2.1 ≠
      ⟨[("Jay", ⟨"ACTIVE", 0, 0⟩), ("Z", ⟨"ACTIVE", 0, 0⟩)], 0⟩ := by
  decide

/-- C6 (counterexample): the hard-filter gate's outcome depends on the wall
clock even though its request carries no timestamp: the same
candidate/job/history evaluated at two different instants yields ELIMINATE
(record inside the 90-day window) versus PASS (window expired). -/
theorem C6_hard_filter_wall_clock_counterexample :
    HardFilters.apply_hard_filters 4320000
        ⟨"C-1", ["java"], "H1B", some "P-1"⟩ ⟨"J-1", "Acme", ["java"], "any"⟩
        [⟨"C-1", "Acme", "J-0", "P-1", .valid 0, "PENDING"⟩] [] ≠
      HardFilters.apply_hard_filters 8640000
        ⟨"C-1", ["java"], "H1B", some "P-1"⟩ ⟨"J-1", "Acme", ["java"], "any"⟩
        [⟨"C-1", "Acme", "J-0", "P-1", .valid 0, "PENDING"⟩] [] := by
  decide

/-- C7 (counterexample): a history record whose date string is present but
unparseable makes the duplicate-submission gate raise (the record reaches the
unprotected `date.fromisoformat` in rule 1) instead of being skipped with a
LOG entry and a decision still returned. -/
theorem C7_unparseable_date_raises_counterexample :
    DupGate.check_submission 0 ⟨"C-1", "Acme", "V-1", "J-2", 100, []⟩
        [⟨"C-1", "Acme", "V-1", "J-1", .malformed, "Submitted"⟩] [] =
      .error "Invalid isoformat string" := by
  decide

/-- C8 (counterexample): a vendor-scoped DNS entry for the requested client
does NOT block a duplicate-submission request that specifies no vendor — the
gate returns ALLOW with no rule triggered, the opposite of the claimed
most-conservative (prefer-blocking) interpretation. -/
theorem C8_vendor_scoped_dns_counterexample :
    (DupGate.check_submission 0 ⟨"C-1", "Acme", "", "J-1", 100, [.dictEntry "Acme" "TCS"]⟩
        [] []).map (fun r => (r.decision, r.rules_triggered)) = .ok ("ALLOW", []) := by
  decide

/-- C3: a submission-type message is escalated with CRITICAL severity whenever
the validation agent Z is in a DEAD or ERROR state, for every priority and
every other field of the envelope — rule 1 of `evaluate_rules` runs before the
URGENT rule, so no priority bypasses the Z safety gate. -/
theorem C3_z_safety_gate_precedence (now : Int) (envelope : Router.Envelope)
    (state : Router.SystemState) (rules : Router.RoutingRules)
    (htype : envelope.type = "SUBMISSION_REQUEST")
    (hz : ((Router.lookupAgent state "Z").map Router.AgentInfo.state).getD "UNKNOWN" = "DEAD" ∨
      ((Router.lookupAgent state "Z").map Router.AgentInfo.state).getD "UNKNOWN" = "ERROR") :
    (Router.route_message now envelope state rules).1.routing_decision = "ESCALATE_TO_HUMAN" ∧
    (Router.route_message now envelope state rules).1.severity = "CRITICAL" := by
  have hgate : Router.check_z_safety_gate state = false := by
    unfold Router.check_z_safety_gate
    rcases hz with h | h <;> simp [h]
  have hcore : Router.evaluate_rules now envelope state rules =
      ⟨"ESCALATE_TO_HUMAN", "CRITICAL", "human", ""⟩ := by
    unfold Router.evaluate_rules
    rw [if_pos ⟨htype, by simp [hgate]⟩]
  constructor <;> simp [Router.route_message, hcore]

/-- Witness for C3 at a concrete envelope and state. -/
theorem C3_z_safety_gate_precedence_witness :
    (Router.route_message 0 ⟨"Jay", "Z", "SUBMISSION_REQUEST", "URGENT", none, "MEDIUM", "r"⟩
        ⟨[("Z", ⟨"DEAD", 0, 0⟩)], 0⟩ ⟨["Z"]⟩).1.routing_decision = "ESCALATE_TO_HUMAN" ∧
    (Router.route_message 0 ⟨"Jay", "Z", "SUBMISSION_REQUEST", "URGENT", none, "MEDIUM", "r"⟩
        ⟨[("Z", ⟨"DEAD", 0, 0⟩)], 0⟩ ⟨["Z"]⟩).1.severity = "CRITICAL" :=
  C3_z_safety_gate_precedence 0 _ _ _ (by decide) (Or.inl (by decide))

namespace DupGate

theorem sevMax_block_of_mem {l : List TriggeredRule} {t : TriggeredRule}
    (ht : t ∈ l) (hs : t.severity = "BLOCK") : sevMax l = "BLOCK" := by
  unfold sevMax
  rw [if_pos]
  exact List.any_eq_true.2 ⟨t, ht, by simp [hs]⟩

theorem rule1_entry_source {now : Int} {req : DupRequest} {hist : List HistRecord}
    {dns : List MasterDnsEntry} {res : DupResult}
    (h : check_submission now req hist dns = .ok res) :
    ∀ t ∈ res.rules_triggered, t.rule = 1 →
      ∃ r1 p, rule1Scan req.consultant_id (normUp req.end_client) req.job_posting_id
          (req.submission_date - 90) hist = .ok r1 ∧ p ∈ r1 ∧ t = p.1 ∧
        p.1 = mkRule1Entry p.2 ∧ p.2.job_posting_id ≠ req.job_posting_id := by
  obtain ⟨r1, r3, h1, h3, hres⟩ := check_submission_ok_elim h
  have htrig : res.rules_triggered =
      (rule5ConsultantScan (normUp req.end_client) (normUp req.vendor_name) req.do_not_submit ++
        rule5MasterScan req.consultant_id (normUp req.end_client) (normUp req.vendor_name) dns ++
        (rule2Scan req.consultant_id req.job_posting_id hist).map Prod.fst ++
        r1.map Prod.fst) ++ r3.map Prod.fst ++
        rule4Scan req.consultant_id req.job_posting_id (normUp req.vendor_name) hist := by
    rw [hres]
  intro t ht h1t
  rw [htrig] at ht
  rcases List.mem_append.1 ht with hbw | h4m
  · rcases List.mem_append.1 hbw with hb | h3m
    · rcases List.mem_append.1 hb with h125 | h1m
      · rcases List.mem_append.1 h125 with h12 | h2m
        · rcases List.mem_append.1 h12 with h5c | h5m
          · rw [mem_rule5ConsultantScan h5c] at h1t
            exact absurd h1t (by decide)
          · rw [mem_rule5MasterScan h5m] at h1t
            exact absurd h1t (by decide)
        · obtain ⟨p, hp, hpt⟩ := List.mem_map.1 h2m
          rw [← hpt, mem_rule2Scan hp] at h1t
          simp [mkRule2Entry] at h1t
      · obtain ⟨p, hp, hpt⟩ := List.mem_map.1 h1m
        obtain ⟨hmk, hjob⟩ := rule1Scan_ok_mem h1 hp
        exact ⟨r1, p, h1, hp, hpt.symm, hmk, hjob⟩
    · obtain ⟨p, hp, hpt⟩ := List.mem_map.1 h3m
      rw [← hpt, rule3Scan_ok_mem h3 hp] at h1t
      simp [mkRule3Entry] at h1t
  · obtain ⟨r4, hr4⟩ := mem_rule4Scan h4m
    rw [hr4] at h1t
    simp [mkRule4Entry] at h1t

end DupGate

/-- C2 (amended): the duplicate, hard-filter and anti-cannibalization gates are
pure functions of their caller-supplied arguments, but the message routing
gate does update the SystemState it is given: exactly the from-agent's
last_activity is overwritten (with the envelope timestamp, defaulting to now);
every other agent entry, the other fields of the from-agent entry, and the
freshness field are unchanged. -/
theorem C2_routing_updates_only_from_agent_activity (now : Int) (envelope : Router.Envelope)
    (state : Router.SystemState) (rules : Router.RoutingRules) :
    (Router.route_message now envelope state rules).2.1 =
      Router.update_agent_activity state envelope.fromAgent (envelope.timestamp.getD now) ∧
    (Router.route_message now envelope state rules).2.1.z_data_age_minutes =
      state.z_data_age_minutes ∧
    (∀ a, a ≠ envelope.fromAgent →
      Router.lookupAgent (Router.route_message now envelope state rules).2.1 a =
        Router.lookupAgent state a) ∧
    (Router.lookupAgent (Router.route_message now envelope state rules).2.1 envelope.fromAgent =
      (Router.lookupAgent state envelope.fromAgent).map
        (fun i => { i with last_activity := envelope.timestamp.getD now })) := by
  have hst : (Router.route_message now envelope state rules).2.1 =
      Router.update_agent_activity state envelope.fromAgent (envelope.timestamp.getD now) := rfl
  refine ⟨hst, ?_, ?_, ?_⟩
  · rw [hst]
    unfold Router.update_agent_activity
    split <;> rfl
  · intro a ha
    rw [hst]
    exact Router.lookupAgent_update_ne state _ a _ ha
  · rw [hst]
    exact Router.lookupAgent_update_self state _ _

/-- Witness for the amended C2 at a concrete envelope and state. -/
theorem C2_routing_updates_only_from_agent_activity_witness :
    (Router.route_message 5000
        ⟨"Jay", "Z", "STATUS_UPDATE", "NORMAL", some 4000, "MEDIUM", "R-1"⟩
        ⟨[("Jay", ⟨"ACTIVE", 0, 0⟩)], 0⟩ ⟨["Z"]⟩).2.1 =
      Router.update_agent_activity ⟨[("Jay", ⟨"ACTIVE", 0, 0⟩)], 0⟩ "Jay" 4000 ∧
    (Router.route_message 5000
        ⟨"Jay", "Z", "STATUS_UPDATE", "NORMAL", some 4000, "MEDIUM", "R-1"⟩
        ⟨[("Jay", ⟨"ACTIVE", 0, 0⟩)], 0⟩ ⟨["Z"]⟩).2.1.z_data_age_minutes = 0 ∧
    (∀ a, a ≠ "Jay" →
      Router.lookupAgent (Router.route_message 5000
          ⟨"Jay", "Z", "STATUS_UPDATE", "NORMAL", some 4000, "MEDIUM", "R-1"⟩
          ⟨[("Jay", ⟨"ACTIVE", 0, 0⟩)], 0⟩ ⟨["Z"]⟩).2.1 a =
        Router.lookupAgent ⟨[("Jay", ⟨"ACTIVE", 0, 0⟩)], 0⟩ a) ∧
    (Router.lookupAgent (Router.route_message 5000
          ⟨"Jay", "Z", "STATUS_UPDATE", "NORMAL", some 4000, "MEDIUM", "R-1"⟩
          ⟨[("Jay", ⟨"ACTIVE", 0, 0⟩)], 0⟩ ⟨["Z"]⟩).2.1 "Jay" =
      (Router.lookupAgent ⟨[("Jay", ⟨"ACTIVE", 0, 0⟩)], 0⟩ "Jay").map
        (fun i => { i with last_activity := 4000 })) :=
  C2_routing_updates_only_from_agent_activity 5000
    ⟨"Jay", "Z", "STATUS_UPDATE", "NORMAL", some 4000, "MEDIUM", "R-1"⟩
    ⟨[("Jay", ⟨"ACTIVE", 0, 0⟩)], 0⟩ ⟨["Z"]⟩

/-- C6 (amended): the duplicate-submission gate's decision, triggered rules,
conflicts and every other field except the reported wall-clock timestamp are
independent of when it is evaluated — its windowing uses only the request's
own submission_date. (The hard-filter, anti-cannibalization and routing gates
do depend on the wall clock, see the C6 counterexample.) -/
theorem C6_duplicate_gate_clock_independent (t1 t2 : Int) (req : DupGate.DupRequest)
    (hist : List DupGate.HistRecord) (dns : List DupGate.MasterDnsEntry) :
    (DupGate.check_submission t1 req hist dns).map DupGate.stripTimestamp =
      (DupGate.check_submission t2 req hist dns).map DupGate.stripTimestamp := by
  simp only [DupGate.check_submission]
  generalize DupGate.rule1Scan req.consultant_id (normUp req.end_client) req.job_posting_id
    (req.submission_date - 90) hist = x1
  cases x1 with
  | error e => rfl
  | ok r1 =>
    generalize DupGate.rule3Scan req.consultant_id (normUp req.end_client)
      (normUp req.vendor_name) (req.submission_date - 30) hist = x3
    cases x3 with
    | error e => rfl
    | ok r3 => rfl

/-- Witness for the amended C6 at concrete times and request. -/
theorem C6_duplicate_gate_clock_independent_witness :
    (DupGate.check_submission 11 ⟨"C-1", "Acme", "V-1", "J-1", 100, []⟩ [] []).map
        DupGate.stripTimestamp =
      (DupGate.check_submission 22 ⟨"C-1", "Acme", "V-1", "J-1", 100, []⟩ [] []).map
        DupGate.stripTimestamp :=
  C6_duplicate_gate_clock_independent 11 22 ⟨"C-1", "Acme", "V-1", "J-1", 100, []⟩ [] []

/-- C9: in the anti-cannibalization gate, provided none of the three earlier
rules in the fixed first-match order fires, a request whose subject already
has 3 same-client applications today is BLOCKed by the diversify rule (and,
being an early return, nothing is logged), while with only 2 such
applications the gate returns ALLOW. -/
theorem C9_diversify_across_clients (now : Int) (app : AntiCann.ProposedApp)
    (hist : List AntiCann.AppRecord)
    (h1 : AntiCann._check_rule_1_duplicate_job_posting app hist = false)
    (h2 : AntiCann._check_rule_2_competing_submissions now app hist = false)
    (h3 : AntiCann._check_rule_3_profile_consistency app hist = false) :
    (AntiCann.appsToClientToday now app hist = 3 →
      AntiCann.check_cannibalization now app hist =
        (⟨"BLOCK", "DIVERSIFY_ACROSS_CLIENTS"⟩, [])) ∧
    (AntiCann.appsToClientToday now app hist = 2 →
      (AntiCann.check_cannibalization now app hist).1.decision = "ALLOW") := by
  constructor
  · intro hcnt
    unfold AntiCann.check_cannibalization
    rw [if_neg (by simp [h1]), if_neg (by simp [h2]), if_neg (by simp [h3]),
      if_pos (by simp [AntiCann._check_rule_4_diversify_clients, hcnt])]
  · intro hcnt
    unfold AntiCann.check_cannibalization
    rw [if_neg (by simp [h1]), if_neg (by simp [h2]), if_neg (by simp [h3]),
      if_neg (by simp [AntiCann._check_rule_4_diversify_clients, hcnt])]

/-- Witness for C9: three prior same-client applications today give BLOCK,
two give ALLOW. -/
theorem C9_diversify_across_clients_witness :
    AntiCann.check_cannibalization 100000 ⟨"C-1", "P-1", "J-1", "Acme", "V-1"⟩
        [⟨"A1", "C-1", "P-1", "J-A", "Acme", "V-2", .valid 90000, "PENDING"⟩,
          ⟨"A2", "C-1", "P-1", "J-B", "Acme", "V-2", .valid 90000, "PENDING"⟩,
          ⟨"A3", "C-1", "P-1", "J-C", "Acme", "V-2", .valid 90000, "PENDING"⟩] =
      (⟨"BLOCK", "DIVERSIFY_ACROSS_CLIENTS"⟩, []) ∧
    (AntiCann.check_cannibalization 100000 ⟨"C-1", "P-1", "J-1", "Acme", "V-1"⟩
        [⟨"A1", "C-1", "P-1", "J-A", "Acme", "V-2", .valid 90000, "PENDING"⟩,
          ⟨"A2", "C-1", "P-1", "J-B", "Acme", "V-2", .valid 90000, "PENDING"⟩]).1.decision =
      "ALLOW" :=
  ⟨(C9_diversify_across_clients 100000 _ _ (by decide) (by decide) (by decide)).1 (by decide),
    (C9_diversify_across_clients 100000 _ _ (by decide) (by decide) (by decide)).2 (by decide)⟩

/-- C10: in the hard-filter gate, whenever the DNS rule abstains, a non-empty
required-skill set with zero case-insensitive overlap against the candidate's
skills yields ELIMINATE via the category-mismatch rule; and with an empty
required-skill set the category-mismatch check never fires, for any
candidate. -/
theorem C10_category_mismatch :
    (∀ (now : Int) (cand : HardFilters.Candidate) (job : HardFilters.Job)
        (hist : List HardFilters.Submission) (dns : List HardFilters.FilterDnsEntry),
      HardFilters._check_dns_list cand job dns = none →
      job.required_skills ≠ [] →
      (∀ s ∈ job.required_skills, pyLower s ∉ cand.skills.map pyLower) →
      HardFilters.apply_hard_filters now cand job hist dns =
        .ok (⟨"ELIMINATE", "CATEGORY_MISMATCH"⟩, [])) ∧
    (∀ (cand : HardFilters.Candidate) (job : HardFilters.Job),
      job.required_skills = [] → HardFilters._check_category_mismatch cand job = none) := by
  constructor
  · intro now cand job hist dns hdns hne hover
    have hfilter : (job.required_skills.map pyLower).filter
        (fun req => decide (req ∈ cand.skills.map pyLower)) = [] := by
      rw [List.filter_eq_nil_iff]
      intro s hs
      obtain ⟨s0, hs0, hse⟩ := List.mem_map.1 hs
      rw [← hse]
      simpa using hover s0 hs0
    have hne2 : ¬(job.required_skills.map pyLower).isEmpty = true := by
      cases hreq : job.required_skills with
      | nil => exact absurd hreq hne
      | cons a l => simp
    have hcat : HardFilters._check_category_mismatch cand job =
        some (0, (job.required_skills.map pyLower).length) := by
      simp only [HardFilters._check_category_mismatch]
      rw [if_neg hne2, hfilter]
      simp
    simp only [HardFilters.apply_hard_filters, hdns, hcat]
  · intro cand job h
    simp [HardFilters._check_category_mismatch, h]

/-- Witness for C10 at a concrete candidate/job pair. -/
theorem C10_category_mismatch_witness :
    HardFilters.apply_hard_filters 0 ⟨"C-2", ["java"], "H1B", some "P-1"⟩
        ⟨"J-2", "Acme", ["python"], "any"⟩ [] [] =
      .ok (⟨"ELIMINATE", "CATEGORY_MISMATCH"⟩, []) ∧
    HardFilters._check_category_mismatch ⟨"C-2", [], "H1B", some "P-1"⟩
        ⟨"J-2", "Acme", [], "any"⟩ = none :=
  ⟨C10_category_mismatch.1 0 ⟨"C-2", ["java"], "H1B", some "P-1"⟩
      ⟨"J-2", "Acme", ["python"], "any"⟩ [] [] (by decide) (by decide) (by decide),
    C10_category_mismatch.2 ⟨"C-2", [], "H1B", some "P-1"⟩ ⟨"J-2", "Acme", [], "any"⟩ rfl⟩

/-- C4: the duplicate-submission gate reduces its accumulated rule outcomes by
severity — the decision is always the maximum of the triggered severities
under BLOCK > WARN > LOG/none, LOG-class entries never influence it — and in
the concrete scenario (same subject, same client, different vendor, different
job id, 29 days after the prior submission, no DNS) both R1 and R3 fire and
the decision is BLOCK, not WARN. -/
theorem C4_severity_reduction_and_day29_block :
    (∀ (now : Int) (req : DupGate.DupRequest) (hist : List DupGate.HistRecord)
        (dns : List DupGate.MasterDnsEntry) (res : DupGate.DupResult),
      DupGate.check_submission now req hist dns = .ok res →
      res.decision = DupGate.sevMax res.rules_triggered) ∧
    (∀ l : List DupGate.TriggeredRule,
      DupGate.sevMax (l.filter (fun t => decide (t.severity ≠ "LOG"))) = DupGate.sevMax l) ∧
    (∀ (c C v1 v2 j1 j2 : String) (d now : Int),
      normUp C ≠ "" → normUp v1 ≠ normUp v2 → j1 ≠ j2 →
      ∃ res, DupGate.check_submission now ⟨c, C, v2, j2, d + 29, []⟩
          [⟨c, C, v1, j1, .valid d, "Submitted"⟩] [] = .ok res ∧
        res.decision = "BLOCK" ∧
        res.rules_triggered.map DupGate.TriggeredRule.rule = [1, 3]) := by
  refine ⟨fun now req hist dns res h => DupGate.check_submission_sevMax h, ?_, ?_⟩
  · intro l
    unfold DupGate.sevMax
    have hB : (l.filter (fun t => decide (t.severity ≠ "LOG"))).any
        (fun t => decide (t.severity = "BLOCK")) =
        l.any (fun t => decide (t.severity = "BLOCK")) := by
      induction l with
      | nil => rfl
      | cons t ts ih =>
        by_cases h : t.severity = "LOG"
        · have hf : decide (t.severity ≠ "LOG") = false := by rw [h]; decide
          have hb : decide (t.severity = "BLOCK") = false := by rw [h]; decide
          rw [List.filter_cons, hf, if_neg Bool.false_ne_true]
          simp only [List.any_cons, hb, Bool.false_or]
          exact ih
        · have hf : decide (t.severity ≠ "LOG") = true := decide_eq_true h
          rw [List.filter_cons, hf, if_pos rfl]
          simp only [List.any_cons]
          rw [ih]
    have hW : (l.filter (fun t => decide (t.severity ≠ "LOG"))).any
        (fun t => decide (t.severity = "WARN")) =
        l.any (fun t => decide (t.severity = "WARN")) := by
      clear hB
      induction l with
      | nil => rfl
      | cons t ts ih =>
        by_cases h : t.severity = "LOG"
        · have hf : decide (t.severity ≠ "LOG") = false := by rw [h]; decide
          have hw : decide (t.severity = "WARN") = false := by rw [h]; decide
          rw [List.filter_cons, hf, if_neg Bool.false_ne_true]
          simp only [List.any_cons, hw, Bool.false_or]
          exact ih
        · have hf : decide (t.severity ≠ "LOG") = true := decide_eq_true h
          rw [List.filter_cons, hf, if_pos rfl]
          simp only [List.any_cons]
          rw [ih]
    rw [hB, hW]
  · intro c C v1 v2 j1 j2 d now hC hv hj
    have h1 : DupGate.rule1Scan c (normUp C) j2 (d + 29 - 90)
        [⟨c, C, v1, j1, .valid d, "Submitted"⟩] =
        .ok [(DupGate.mkRule1Entry ⟨c, C, v1, j1, .valid d, "Submitted"⟩,
          ⟨c, C, v1, j1, .valid d, "Submitted"⟩)] := by
      simp only [DupGate.rule1Scan]
      rw [if_pos (by simp [hC]), if_pos ⟨by omega, hj⟩]
      rfl
    have h3 : DupGate.rule3Scan c (normUp C) (normUp v2) (d + 29 - 30)
        [⟨c, C, v1, j1, .valid d, "Submitted"⟩] =
        .ok [(DupGate.mkRule3Entry ⟨c, C, v1, j1, .valid d, "Submitted"⟩,
          ⟨c, C, v1, j1, .valid d, "Submitted"⟩)] := by
      simp only [DupGate.rule3Scan]
      rw [if_pos (by simp [hC, hv]), if_pos (by omega)]
      rfl
    simp only [DupGate.check_submission, h1, h3]
    refine ⟨_, rfl, ?_, ?_⟩
    · simp [DupGate.rule2Scan, DupGate.rule5ConsultantScan, DupGate.rule5MasterScan, hj]
    · simp [DupGate.rule2Scan, DupGate.rule4Scan, DupGate.rule5ConsultantScan,
        DupGate.rule5MasterScan, hj, DupGate.mkRule1Entry, DupGate.mkRule3Entry]

/-- Witness for C4's concrete day-29 scenario. -/
theorem C4_severity_reduction_and_day29_block_witness :
    ∃ res, DupGate.check_submission 7 ⟨"C-9", "Acme", "Infosys", "J-2", 0 + 29, []⟩
        [⟨"C-9", "Acme", "TCS", "J-1", .valid 0, "Submitted"⟩] [] = .ok res ∧
      res.decision = "BLOCK" ∧
      res.rules_triggered.map DupGate.TriggeredRule.rule = [1, 3] :=
  C4_severity_reduction_and_day29_block.2.2 "C-9" "Acme" "TCS" "Infosys" "J-1" "J-2" 0 7
    (by decide) (by decide) (by decide)

/-- C5: whenever the history contains a record with the same consultant id and
an identical job-posting id as the request, any decision the
duplicate-submission gate returns is BLOCK with a rule-2 entry triggered,
regardless of dates; every rule-1 entry excludes the exact-duplicate record
(its conflicting record never carries the request's job-posting id); and the
concrete re-run of the same subject/client/vendor/job 10 days later yields
BLOCK attributed to rule 2 alone. -/
theorem C5_exact_duplicate_always_blocks (now : Int) (req : DupGate.DupRequest)
    (hist : List DupGate.HistRecord) (dns : List DupGate.MasterDnsEntry)
    (res : DupGate.DupResult) (h : DupGate.check_submission now req hist dns = .ok res)
    (r : DupGate.HistRecord) (hr : r ∈ hist)
    (hcid : r.consultant_id = req.consultant_id)
    (hjob : r.job_posting_id = req.job_posting_id) :
    res.decision = "BLOCK" ∧
    (∃ t ∈ res.rules_triggered, t.rule = 2) ∧
    (∀ t ∈ res.rules_triggered, t.rule = 1 →
      ∀ cr, t.conflicting_record = some cr → cr.job_posting_id ≠ req.job_posting_id) ∧
    (DupGate.check_submission 0 ⟨"C-042", "Acme", "TrueNorth", "JOB-1", 10, []⟩
        [⟨"C-042", "Acme", "TrueNorth", "JOB-1", .valid 0, "Submitted"⟩] []).map
      (fun x => (x.decision, x.rules_triggered.map DupGate.TriggeredRule.rule)) =
      .ok ("BLOCK", [2]) := by
  have hsev := DupGate.check_submission_sevMax h
  obtain ⟨r1, r3, h1, h3, hres⟩ := DupGate.check_submission_ok_elim h
  have htrig : res.rules_triggered =
      (DupGate.rule5ConsultantScan (normUp req.end_client) (normUp req.vendor_name)
          req.do_not_submit ++
        DupGate.rule5MasterScan req.consultant_id (normUp req.end_client)
          (normUp req.vendor_name) dns ++
        (DupGate.rule2Scan req.consultant_id req.job_posting_id hist).map Prod.fst ++
        r1.map Prod.fst) ++ r3.map Prod.fst ++
        DupGate.rule4Scan req.consultant_id req.job_posting_id (normUp req.vendor_name) hist := by
    rw [hres]
  have hmem : DupGate.mkRule2Entry r ∈ res.rules_triggered := by
    rw [htrig]
    exact List.mem_append_left _ (List.mem_append_left _ (List.mem_append_left _
      (List.mem_append_right _
        (List.mem_map.2 ⟨(DupGate.mkRule2Entry r, r),
          DupGate.mem_rule2Scan_intro hr hcid hjob, rfl⟩))))
  refine ⟨?_, ⟨DupGate.mkRule2Entry r, hmem, rfl⟩, ?_, by decide⟩
  · rw [hsev]
    exact DupGate.sevMax_block_of_mem hmem rfl
  · intro t ht h1t cr hcr
    obtain ⟨r1w, p, h1w, hp, hteq, hmk, hjobw⟩ := DupGate.rule1_entry_source h t ht h1t
    rw [hteq, hmk] at hcr
    exact Option.some.inj hcr ▸ hjobw

/-- Witness for C5 at a concrete request, history and result. -/
theorem C5_exact_duplicate_always_blocks_witness :
    (⟨"BLOCK", "C-1", "B", "V", "J",
        [DupGate.mkRule2Entry ⟨"C-1", "B", "V", "J", .valid 1, "s"⟩],
        [⟨"C-1", "B", "V", "J", .valid 1, "s"⟩], 5, 7⟩ : DupGate.DupResult).decision =
      "BLOCK" ∧
    (∃ t ∈ (⟨"BLOCK", "C-1", "B", "V", "J",
        [DupGate.mkRule2Entry ⟨"C-1", "B", "V", "J", .valid 1, "s"⟩],
        [⟨"C-1", "B", "V", "J", .valid 1, "s"⟩], 5, 7⟩ : DupGate.DupResult).rules_triggered,
      t.rule = 2) ∧
    (∀ t ∈ (⟨"BLOCK", "C-1", "B", "V", "J",
        [DupGate.mkRule2Entry ⟨"C-1", "B", "V", "J", .valid 1, "s"⟩],
        [⟨"C-1", "B", "V", "J", .valid 1, "s"⟩], 5, 7⟩ : DupGate.DupResult).rules_triggered,
      t.rule = 1 → ∀ cr, t.conflicting_record = some cr → cr.job_posting_id ≠ "J") ∧
    (DupGate.check_submission 0 ⟨"C-042", "Acme", "TrueNorth", "JOB-1", 10, []⟩
        [⟨"C-042", "Acme", "TrueNorth", "JOB-1", .valid 0, "Submitted"⟩] []).map
      (fun x => (x.decision, x.rules_triggered.map DupGate.TriggeredRule.rule)) =
      .ok ("BLOCK", [2]) :=
  C5_exact_duplicate_always_blocks 7 ⟨"C-1", "B", "V", "J", 50, []⟩
    [⟨"C-1", "B", "V", "J", .valid 1, "s"⟩] [] _ (by decide)
    ⟨"C-1", "B", "V", "J", .valid 1, "s"⟩ (by decide) rfl rfl

/-- C7 (amended): a history record with an unparseable or missing date is
skipped by the windowing rules and leaves the gate's entire output unchanged —
no LOG-class evidence entry notes the skip: in the hard-filter gate this holds
for any malformed-dated record that is not an exact job-id duplicate, and in
the duplicate-submission gate for a missing-date record with a different
job-posting id (a present-but-unparseable date there raises instead, see the
C7 counterexample). -/
theorem C7_malformed_record_skipping :
    (∀ (now : Int) (cand : HardFilters.Candidate) (job : HardFilters.Job)
        (hist : List HardFilters.Submission) (dns : List HardFilters.FilterDnsEntry)
        (s : HardFilters.Submission),
      (s.submitted_date = .malformed ∨ s.submitted_date = .missing) →
      ¬(s.candidate_id = cand.candidate_id ∧ s.job_id = job.job_id) →
      HardFilters.apply_hard_filters now cand job (s :: hist) dns =
        HardFilters.apply_hard_filters now cand job hist dns) ∧
    (∀ (now : Int) (req : DupGate.DupRequest) (hist : List DupGate.HistRecord)
        (dns : List DupGate.MasterDnsEntry) (r : DupGate.HistRecord),
      r.submission_date = .missing → r.job_posting_id ≠ req.job_posting_id →
      DupGate.check_submission now req (r :: hist) dns =
        DupGate.check_submission now req hist dns) := by
  constructor
  · intro now cand job hist dns s hmal hnd
    unfold HardFilters.apply_hard_filters
    rw [HardFilters.already_submitted_cons_skip hmal hnd,
      HardFilters.daily_limit_cons_skip hmal]
  · intro now req hist dns r hmiss hjob
    simp only [DupGate.check_submission]
    rw [DupGate.rule1Scan_cons_missing hmiss, DupGate.rule3Scan_cons_missing hmiss,
      DupGate.rule2Scan_cons_other hjob, DupGate.rule4Scan_cons_other hjob]

/-- Witness for the amended C7 at concrete inputs. -/
theorem C7_malformed_record_skipping_witness :
    HardFilters.apply_hard_filters 0 ⟨"C-1", ["java"], "H1B", some "P"⟩
        ⟨"J-1", "Acme", [], "any"⟩ [⟨"C-1", "Acme", "J-9", "P", .malformed, "s"⟩] [] =
      HardFilters.apply_hard_filters 0 ⟨"C-1", ["java"], "H1B", some "P"⟩
        ⟨"J-1", "Acme", [], "any"⟩ [] [] ∧
    DupGate.check_submission 3 ⟨"C-1", "Acme", "V", "J-1", 9, []⟩
        [⟨"C-1", "Acme", "V", "J-7", .missing, "s"⟩] [] =
      DupGate.check_submission 3 ⟨"C-1", "Acme", "V", "J-1", 9, []⟩ [] [] :=
  ⟨C7_malformed_record_skipping.1 0 ⟨"C-1", ["java"], "H1B", some "P"⟩
      ⟨"J-1", "Acme", [], "any"⟩ [] [] ⟨"C-1", "Acme", "J-9", "P", .malformed, "s"⟩
      (Or.inl rfl) (by decide),
    C7_malformed_record_skipping.2 3 ⟨"C-1", "Acme", "V", "J-1", 9, []⟩ [] []
      ⟨"C-1", "Acme", "V", "J-7", .missing, "s"⟩ rfl (by decide)⟩

/-- C8 (amended): when a duplicate-submission request specifies no vendor, a
vendor-scoped DNS entry for the requested client does NOT fire (rule 5 skips
every entry whose normalised vendor scope is non-empty); only a company-wide
entry (empty vendor scope) matching the client forces BLOCK, for any request
vendor; and when the normalised client field is empty, the same-client 90-day
rule never produces an entry (it is skipped, not conservatively blocked). -/
theorem C8_missing_field_policy :
    (∀ (ec : String) (dns : List DupGate.ConsultantDnsEntry),
      (∀ e ∈ dns, normUp e.vendor ≠ "") → DupGate.rule5ConsultantScan ec "" dns = []) ∧
    (∀ (cid ec : String) (dns : List DupGate.MasterDnsEntry),
      (∀ e ∈ dns, normUp e.vendor ≠ "") → DupGate.rule5MasterScan cid ec "" dns = []) ∧
    (∀ (now : Int) (req : DupGate.DupRequest) (hist : List DupGate.HistRecord)
        (dns : List DupGate.MasterDnsEntry) (res : DupGate.DupResult)
        (e : DupGate.ConsultantDnsEntry),
      e ∈ req.do_not_submit → e.vendor = "" → normUp e.company = normUp req.end_client →
      DupGate.check_submission now req hist dns = .ok res → res.decision = "BLOCK") ∧
    (∀ (now : Int) (req : DupGate.DupRequest) (hist : List DupGate.HistRecord)
        (dns : List DupGate.MasterDnsEntry) (res : DupGate.DupResult),
      normUp req.end_client = "" → DupGate.check_submission now req hist dns = .ok res →
      ∀ t ∈ res.rules_triggered, t.rule ≠ 1) := by
  refine ⟨fun ec dns h => DupGate.rule5ConsultantScan_all_scoped h,
    fun cid ec dns h => DupGate.rule5MasterScan_all_scoped h, ?_, ?_⟩
  · intro now req hist dns res e he hv hco h
    have hsev := DupGate.check_submission_sevMax h
    obtain ⟨r1, r3, h1, h3, hres⟩ := DupGate.check_submission_ok_elim h
    have htrig : res.rules_triggered =
        (DupGate.rule5ConsultantScan (normUp req.end_client) (normUp req.vendor_name)
            req.do_not_submit ++
          DupGate.rule5MasterScan req.consultant_id (normUp req.end_client)
            (normUp req.vendor_name) dns ++
          (DupGate.rule2Scan req.consultant_id req.job_posting_id hist).map Prod.fst ++
          r1.map Prod.fst) ++ r3.map Prod.fst ++
          DupGate.rule4Scan req.consultant_id req.job_posting_id (normUp req.vendor_name)
            hist := by
      rw [hres]
    have hmem : DupGate.mkRule5ConsultantEntry ∈ res.rules_triggered := by
      rw [htrig]
      exact List.mem_append_left _ (List.mem_append_left _ (List.mem_append_left _
        (List.mem_append_left _ (List.mem_append_left _
          (DupGate.mem_rule5ConsultantScan_intro he hco hv)))))
    rw [hsev]
    exact DupGate.sevMax_block_of_mem hmem rfl
  · intro now req hist dns res hec h t ht h1t
    obtain ⟨r1, p, h1, hp, -, -, -⟩ := DupGate.rule1_entry_source h t ht h1t
    rw [hec, DupGate.rule1Scan_empty_client hist] at h1
    cases Except.ok.inj h1
    cases hp

/-- Witness for the amended C8 at concrete entries and requests. -/
theorem C8_missing_field_policy_witness :
    DupGate.rule5ConsultantScan "ACME" "" [.dictEntry "Acme" "TCS"] = [] ∧
    DupGate.rule5MasterScan "C-1" "ACME" "" [⟨"C-1", "Acme", "TCS", "x"⟩] = [] ∧
    (⟨"BLOCK", "C-1", "ACME", "V", "J", [DupGate.mkRule5ConsultantEntry], [], 5, 2⟩ :
      DupGate.DupResult).decision = "BLOCK" ∧
    (∀ t ∈ (⟨"ALLOW", "C-1", "", "V", "J", [], [], 5, 2⟩ :
      DupGate.DupResult).rules_triggered, t.rule ≠ 1) :=
  ⟨C8_missing_field_policy.1 "ACME" [.dictEntry "Acme" "TCS"] (by decide),
    C8_missing_field_policy.2.1 "C-1" "ACME" [⟨"C-1", "Acme", "TCS", "x"⟩] (by decide),
    C8_missing_field_policy.2.2.1 2 ⟨"C-1", "Acme", "V", "J", 5, [.dictEntry "Acme" ""]⟩
      [] [] _ (.dictEntry "Acme" "") (by decide) rfl (by decide) (by decide),
    C8_missing_field_policy.2.2.2 2 ⟨"C-1", "", "V", "J", 5, []⟩ [] [] _ (by decide)
      (by decide)⟩
